import Mathlib

/-
Verification of the window-splitter position controller
(packages/window-splitter/src/index.tsx).

Numbers are modelled as rationals. JS Math.round rounds half toward
positive infinity, modelled by jsMathRound. Number.toFixed at a tie picks
the larger candidate, so it is the same rounding. The decimal precision of
a step (the length of the fractional part of its decimal string) is
modelled as the least p such that step times 10 to the p is an integer,
which agrees with toString for every exactly-representable step.
-/

namespace WindowSplitter

/-- JS Math.round: round half toward positive infinity. -/
def jsMathRound (x : ℚ) : ℤ := ⌊x + 1/2⌋

/-- Source getAllowedValue: clamp val into the closed interval from min to max. -/
def getAllowedValue (val min max : ℚ) : ℚ :=
  if val > max then max else if val < min then min else val

/-- Source percentToValue: linear interpolation. -/
def percentToValue (percent min max : ℚ) : ℚ :=
  (max - min) * percent + min

/-- Fuel-bounded search for the number of decimal digits of a rational: 0 when
the value is already an integer (denominator 1), otherwise one more than the
digit count of ten times the value. -/
def stepPrecisionAux : ℕ → ℚ → ℕ
  | 0, _ => 0
  | fuel + 1, q => if q.den = 1 then 0 else stepPrecisionAux fuel (q * 10) + 1

/-- Decimal precision of a step, modelling step.toString().split(".")[1].length
with 0 when there is no fractional part: the least p such that step times 10
to the p is an integer. The fuel 100 matches the largest digit count toFixed
accepts. -/
def stepPrecision (step : ℚ) : ℕ :=
  stepPrecisionAux 100 step

/-- Source makeValuePrecise: Number(value.toFixed(stepPrecision)). -/
def makeValuePrecise (value step : ℚ) : ℚ :=
  (jsMathRound (value * 10 ^ stepPrecision step) : ℚ) / (10 ^ stepPrecision step : ℚ)

/-- Source roundValueToStep: makeValuePrecise(Math.round(value / step) * step, step). -/
def roundValueToStep (value step : ℚ) : ℚ :=
  makeValuePrecise ((jsMathRound (value / step) : ℚ) * step) step

/-- Source roundValueToClosest(value, min, max):
Math.abs(min - value) < Math.abs(max - value) ? min : max. -/
def roundValueToClosest (value min max : ℚ) : ℚ :=
  if |min - value| < |max - value| then min else max

/-- The bounding client rect of the container element. -/
structure Rect where
  left : ℚ
  width : ℚ
  height : ℚ

/-- Source getNewValueFromPointer. rect is none when the container element is
not mounted, in which case the source returns null. Note that the source
evaluates roundValueToStep(newValue, step) as a bare statement inside
if (step) but never assigns the result; the unused binding below mirrors
that discarded computation. -/
def getNewValueFromPointer (rect : Option Rect) (clientX clientY : ℚ)
    (isHorizontal : Bool) (min max step : ℚ) : Option ℚ :=
  match rect with
  | some r =>
      let diff := if isHorizontal then clientX - r.left else clientY
      let percent := diff / (if isHorizontal then r.width else r.height)
      let newValue := percentToValue percent min max
      let _discarded := if step ≠ 0 then roundValueToStep newValue step else newValue
      some (getAllowedValue newValue min max)
  | none => none

/-- Observable state of the controller: the internal useState value and the
list of values passed to the onChange callback so far. -/
structure ControllerState where
  internalValue : ℚ
  notified : List ℚ

/-- Source updateValue: setValue(newValue) only when not controlled, then
onChange(newValue) in both modes. -/
def updateValue (isControlled : Bool) (s : ControllerState) (newValue : ℚ) :
    ControllerState :=
  { internalValue := if isControlled then s.internalValue else newValue
    notified := s.notified ++ [newValue] }

/-- The value the container exposes for rendering: the controlled value when
controlled, otherwise the internal value, passed through getAllowedValue. -/
def renderedValue (isControlled : Bool) (controlledValue internalValue min max : ℚ) : ℚ :=
  getAllowedValue (if isControlled then controlledValue else internalValue) min max

/-- Initial internal value, modelling useState(defaultValue || min + (max - min) / 2).
A defaultValue of 0 is falsy in JS, so it falls through to the midpoint. -/
def initialValue (defaultValue : Option ℚ) (min max : ℚ) : ℚ :=
  match defaultValue with
  | some d => if d = 0 then min + (max - min) / 2 else d
  | none => min + (max - min) / 2

/-- The keys the keydown handler switches on. -/
inductive Key where
  | arrowLeft
  | arrowRight
  | arrowUp
  | arrowDown
  | home
  | endKey
  | f6
  | other
deriving DecidableEq

/-- Outcome of the keydown handler: whether event.preventDefault() was called
and the value passed to updateValue, if any. -/
structure KeyDownResult where
  preventDefault : Bool
  update : Option ℚ
deriving DecidableEq

/-- Source handleKeyDown. keyStep is stepProp || (max - min) / 100, where a
stepProp of 0 is falsy. The inner conditionals mirror the source ternaries
isVariable ? value - keyStep : min even though they sit under a guard that
already requires isVariable. On a flagged key the result is rounded to
keyStep, clamped, and passed to updateValue after preventDefault. -/
def handleKeyDown (key : Key) (value min max : ℚ) (stepProp : Option ℚ)
    (isHorizontal isVariable : Bool) : KeyDownResult :=
  let keyStep := match stepProp with
    | some s => if s = 0 then (max - min) / 100 else s
    | none => (max - min) / 100
  let candidate : Option ℚ :=
    match key with
    | .arrowLeft =>
        if isHorizontal && isVariable then
          some (if isVariable then value - keyStep else min)
        else none
    | .arrowRight =>
        if isHorizontal && isVariable then
          some (if isVariable then value + keyStep else max)
        else none
    | .arrowUp =>
        if !isHorizontal && isVariable then
          some (if isVariable then value - keyStep else min)
        else none
    | .arrowDown =>
        if !isHorizontal && isVariable then
          some (if isVariable then value + keyStep else max)
        else none
    | .home => some min
    | .endKey => some max
    | .f6 => none
    | .other => none
  match candidate with
  | some nv =>
      { preventDefault := true
        update := some (getAllowedValue (roundValueToStep nv keyStep) min max) }
  | none => { preventDefault := false, update := none }

/-- Source handlePointerMove inside the pointer-move effect: it computes
getNewValueFromPointer(event) and calls updateValue(newValue) whenever
newValue !== value, with no null check. The outer some means updateValue
was invoked; its argument is the inner Option, none standing for null. -/
def handlePointerMove (rect : Option Rect) (clientX clientY : ℚ)
    (isHorizontal : Bool) (min max step value : ℚ) : Option (Option ℚ) :=
  let newValue := getNewValueFromPointer rect clientX clientY isHorizontal min max step
  if newValue ≠ some value then some newValue else none

/-- Outcome of the pointer-down handler: preventDefault is always called,
pointerDown records setPointerDown(true), update the value passed to
updateValue, if any. -/
structure PointerDownResult where
  preventDefault : Bool
  pointerDown : Bool
  update : Option ℚ
deriving DecidableEq

/-- Source handlePointerDown: preventDefault, then when the separator element
is mounted it starts the drag, computes a value from the pointer position
and applies it when it is non-null and differs from the current value. -/
def handlePointerDown (separatorMounted : Bool) (rect : Option Rect)
    (clientX clientY : ℚ) (isHorizontal : Bool) (min max step value : ℚ) :
    PointerDownResult :=
  if separatorMounted then
    let newValue := getNewValueFromPointer rect clientX clientY isHorizontal min max step
    { preventDefault := true
      pointerDown := true
      update := match newValue with
        | some nv => if nv ≠ value then some nv else none
        | none => none }
  else
    { preventDefault := true, pointerDown := false, update := none }

/-- Net effect on the value of the variant-reconciliation effect: when the
variant is not variable and no pointer is down, the source computes
roundValueToClosest(value, max, min) -- with max passed as the min argument
and min as the max argument, mirrored here -- and updates to it when it
differs; otherwise the value stays put. -/
def reconcileVariantEffect (value min max : ℚ) (isVariable isPointerDown : Bool) : ℚ :=
  if !isVariable && !isPointerDown then roundValueToClosest value max min else value

/-! Helper lemmas for evaluating the rounding functions on concrete inputs. -/

theorem jsMathRound_eq {x : ℚ} {n : ℤ} (h1 : (n : ℚ) ≤ x + 1/2)
    (h2 : x + 1/2 < (n : ℚ) + 1) : jsMathRound x = n := by
  unfold jsMathRound
  exact Int.floor_eq_iff.mpr ⟨h1, h2⟩

theorem stepPrecisionAux_den_one (fuel : ℕ) (q : ℚ) (h : q.den = 1) :
    stepPrecisionAux (fuel + 1) q = 0 := by
  simp [stepPrecisionAux, h]

theorem stepPrecision_den_one {s : ℚ} (h : s.den = 1) : stepPrecision s = 0 :=
  stepPrecisionAux_den_one 99 s h

theorem makeValuePrecise_prec_zero {v s : ℚ} {n : ℤ} (hs : stepPrecision s = 0)
    (h1 : (n : ℚ) ≤ v + 1/2) (h2 : v + 1/2 < (n : ℚ) + 1) :
    makeValuePrecise v s = n := by
  unfold makeValuePrecise
  rw [hs, pow_zero, mul_one, jsMathRound_eq h1 h2, div_one]

theorem roundValueToStep_eval {v s : ℚ} {m n : ℤ} (hs : stepPrecision s = 0)
    (hm1 : (m : ℚ) ≤ v / s + 1/2) (hm2 : v / s + 1/2 < (m : ℚ) + 1)
    (hn1 : (n : ℚ) ≤ (m : ℚ) * s + 1/2) (hn2 : (m : ℚ) * s + 1/2 < (n : ℚ) + 1) :
    roundValueToStep v s = n := by
  unfold roundValueToStep
  rw [jsMathRound_eq hm1 hm2]
  exact makeValuePrecise_prec_zero hs hn1 hn2

theorem abs_sub_eval_le {a b : ℚ} (h : a ≤ b) : |a - b| = b - a := by
  rw [abs_sub_comm]
  exact abs_of_nonneg (by linarith)

theorem abs_sub_eval_ge {a b : ℚ} (h : b ≤ a) : |a - b| = a - b :=
  abs_of_nonneg (by linarith)

/-! The claims. -/

/-- C1: getNewValueFromPointer is claimed to apply step rounding to the
interpolated value before clamping. The source evaluates roundValueToStep as a
bare expression statement and discards its result, so with step 1 a pointer at
client x-coordinate 50.5 over a container of width 100 and range 0 to 100
returns 50.5: a value strictly inside the range that is not the step-rounded
value 51 and not an integer multiple of the step at all. -/
theorem C1_pointer_step_rounding_discarded :
    getNewValueFromPointer (some ⟨0, 100, 100⟩) (101/2) 0 true 0 100 1 = some (101/2)
    ∧ roundValueToStep (101/2) 1 = 51
    ∧ (101/2 : ℚ) ≠ 51
    ∧ (0 : ℚ) < 101/2 ∧ (101/2 : ℚ) < 100
    ∧ ¬ ∃ k : ℤ, (101/2 : ℚ) = (k : ℚ) * 1 := by
  refine ⟨?_, ?_, by norm_num, by norm_num, by norm_num, ?_⟩
  · norm_num [getNewValueFromPointer, percentToValue, getAllowedValue]
  · have h := roundValueToStep_eval (v := 101/2) (s := 1) (m := 51) (n := 51)
      (stepPrecision_den_one (by norm_num)) (by norm_num) (by norm_num)
      (by norm_num) (by norm_num)
    exact_mod_cast h
  · rintro ⟨k, hk⟩
    rw [mul_one] at hk
    have hden : ((101 : ℚ)/2).den = 1 := by rw [hk]; exact Rat.den_intCast k
    norm_num at hden

/-- C2: getNewValueFromPointer does return the sentinel none when the
container rect is unavailable, but the pointer-move handler does not treat
none as no update: since none differs from some value, it invokes updateValue
with the null sentinel as its argument. -/
theorem C2_pointer_move_calls_update_with_null :
    getNewValueFromPointer none 0 0 true 0 100 1 = none
    ∧ handlePointerMove none 0 0 true 0 100 1 50 = some none :=
  ⟨rfl, by simp [handlePointerMove, getNewValueFromPointer]⟩

/-- C3: for every ownership mode and every pair of values, the value the
container exposes for rendering is clamped through getAllowedValue, hence it
lies in the closed range whenever min is below max, even when a controlled
owner supplies a value outside the range. -/
theorem C3_rendered_value_stays_in_range (c : Bool) (cv iv min max : ℚ)
    (h : min < max) :
    min ≤ renderedValue c cv iv min max ∧ renderedValue c cv iv min max ≤ max := by
  unfold renderedValue getAllowedValue
  split_ifs <;> constructor <;> linarith

/-- C3 witness: a controlled value of 150 over the range 0 to 100 renders
inside the range. -/
theorem C3_rendered_value_stays_in_range_witness :
    (0 : ℚ) < 100
    ∧ ((0 : ℚ) ≤ renderedValue true 150 0 0 100 ∧ renderedValue true 150 0 0 100 ≤ 100) :=
  ⟨by norm_num, C3_rendered_value_stays_in_range true 150 0 0 100 (by norm_num)⟩

/-- C4 counterexample: at the exact midpoint the strict comparison in
roundValueToClosest fails, so the else branch returns max, not min as the
claim states: roundValueToClosest 50 0 100 evaluates to 100, not 0. -/
theorem C4_tie_counterexample :
    roundValueToClosest 50 0 100 = 100 ∧ (100 : ℚ) ≠ 0 := by
  constructor
  · rw [roundValueToClosest, abs_sub_eval_le (by norm_num), abs_sub_eval_ge (by norm_num)]
    norm_num
  · norm_num

/-- C4 amended: roundValueToClosest returns min when value is strictly closer
to min and max otherwise, so an exact midpoint tie resolves to max; concretely
40 maps to 0, 60 maps to 100, and the tie at 50 maps to 100. -/
theorem C4_round_to_closest_edge (v min max : ℚ) :
    roundValueToClosest v min max = (if |v - min| < |v - max| then min else max)
    ∧ (|v - min| = |v - max| → roundValueToClosest v min max = max)
    ∧ roundValueToClosest 40 0 100 = 0
    ∧ roundValueToClosest 60 0 100 = 100
    ∧ roundValueToClosest 50 0 100 = 100 := by
  refine ⟨?_, ?_, ?_, ?_, ?_⟩
  · simp only [roundValueToClosest, abs_sub_comm min v, abs_sub_comm max v]
  · intro h
    rw [roundValueToClosest, abs_sub_comm min v, abs_sub_comm max v, h,
      if_neg (lt_irrefl _)]
  · rw [roundValueToClosest, abs_sub_eval_le (by norm_num), abs_sub_eval_ge (by norm_num)]
    norm_num
  · rw [roundValueToClosest, abs_sub_eval_le (by norm_num), abs_sub_eval_ge (by norm_num)]
    norm_num
  · rw [roundValueToClosest, abs_sub_eval_le (by norm_num), abs_sub_eval_ge (by norm_num)]
    norm_num

/-- C5: when the variant is fixed and no drag is active, the reconciliation
effect moves the value to a range edge that is at least as close as the other
edge; in every other configuration the value is left unchanged; and a drag
ending at 63 over the range 0 to 100 settles at 100. -/
theorem C5_fixed_variant_settles_to_nearest_edge (v min max : ℚ) (iv ipd : Bool) :
    ((reconcileVariantEffect v min max false false = min
        ∨ reconcileVariantEffect v min max false false = max)
      ∧ |reconcileVariantEffect v min max false false - v| ≤ |min - v|
      ∧ |reconcileVariantEffect v min max false false - v| ≤ |max - v|)
    ∧ (iv = true ∨ ipd = true → reconcileVariantEffect v min max iv ipd = v)
    ∧ reconcileVariantEffect 63 0 100 false false = 100 := by
  refine ⟨?_, ?_, ?_⟩
  · have hre : reconcileVariantEffect v min max false false = roundValueToClosest v max min := by
      simp [reconcileVariantEffect]
    rw [hre, roundValueToClosest]
    by_cases h : |max - v| < |min - v|
    · rw [if_pos h]
      exact ⟨Or.inr rfl, le_of_lt h, le_refl _⟩
    · rw [if_neg h]
      exact ⟨Or.inl rfl, le_refl _, not_lt.mp h⟩
  · rintro (rfl | rfl) <;> simp [reconcileVariantEffect]
  · rw [reconcileVariantEffect]
    norm_num [roundValueToClosest, abs_sub_eval_le (by norm_num : (0:ℚ) ≤ 63),
      abs_sub_eval_ge (by norm_num : (63:ℚ) ≤ 100)]

/-- C6: in controlled mode any sequence of updateValue calls leaves the
internal stored value untouched, the rendered value stays determined by the
value the owner supplies, and every proposed value is still handed to the
notification callback. -/
theorem C6_controlled_mode_never_mutates_state (s : ControllerState) (vs : List ℚ)
    (cv min max : ℚ) :
    (vs.foldl (updateValue true) s).internalValue = s.internalValue
    ∧ renderedValue true cv (vs.foldl (updateValue true) s).internalValue min max
        = renderedValue true cv s.internalValue min max
    ∧ (vs.foldl (updateValue true) s).notified = s.notified ++ vs := by
  have key : ∀ (l : List ℚ) (t : ControllerState),
      (l.foldl (updateValue true) t).internalValue = t.internalValue
      ∧ (l.foldl (updateValue true) t).notified = t.notified ++ l := by
    intro l
    induction l with
    | nil => intro t; simp
    | cons x xs ih =>
        intro t
        simp only [List.foldl_cons]
        rcases ih (updateValue true t x) with ⟨h1, h2⟩
        refine ⟨?_, ?_⟩
        · rw [h1]; simp [updateValue]
        · rw [h2]; simp [updateValue]
  rcases key vs s with ⟨h1, h2⟩
  exact ⟨h1, by rw [h1], h2⟩

/-- C7: on a horizontal splitter with range 0 to 100, no step prop and current
value 50, Home updates to 0, End updates to 100, ArrowRight updates by the
default key step of one to 51, and an uncontrolled updateValue stores exactly
the value it is given. -/
theorem C7_home_end_arrow_right_defaults :
    (handleKeyDown Key.home 50 0 100 none true true).update = some 0
    ∧ (handleKeyDown Key.endKey 50 0 100 none true true).update = some 100
    ∧ (handleKeyDown Key.arrowRight 50 0 100 none true true).update = some 51
    ∧ ∀ (s : ControllerState) (v : ℚ), (updateValue false s v).internalValue = v := by
  refine ⟨?_, ?_, ?_, fun s v => rfl⟩
  · have hr : roundValueToStep (0:ℚ) 1 = ((0:ℤ):ℚ) :=
      roundValueToStep_eval (m := 0) (stepPrecision_den_one (by norm_num))
        (by norm_num) (by norm_num) (by norm_num) (by norm_num)
    simp only [handleKeyDown]
    norm_num [hr, getAllowedValue]
  · have hr : roundValueToStep (100:ℚ) 1 = ((100:ℤ):ℚ) :=
      roundValueToStep_eval (m := 100) (stepPrecision_den_one (by norm_num))
        (by norm_num) (by norm_num) (by norm_num) (by norm_num)
    simp only [handleKeyDown]
    norm_num [hr, getAllowedValue]
  · have hr : roundValueToStep (51:ℚ) 1 = ((51:ℤ):ℚ) :=
      roundValueToStep_eval (m := 51) (stepPrecision_den_one (by norm_num))
        (by norm_num) (by norm_num) (by norm_num) (by norm_num)
    simp only [handleKeyDown]
    norm_num [hr, getAllowedValue]

/-- C8: a key that is unrecognized, or a directional key that does not match
the current orientation, produces the unhandled outcome: no preventDefault
and no call to updateValue, for every value, range, step and variant. -/
theorem C8_unhandled_key_is_noop (key : Key) (value min max : ℚ)
    (stepProp : Option ℚ) (isHorizontal isVariable : Bool)
    (h : key = Key.other
      ∨ (isHorizontal = true ∧ (key = Key.arrowUp ∨ key = Key.arrowDown))
      ∨ (isHorizontal = false ∧ (key = Key.arrowLeft ∨ key = Key.arrowRight))) :
    handleKeyDown key value min max stepProp isHorizontal isVariable
      = { preventDefault := false, update := none } := by
  rcases h with rfl | ⟨rfl, rfl | rfl⟩ | ⟨rfl, rfl | rfl⟩ <;> simp [handleKeyDown]

/-- C8 witness: ArrowUp on a horizontal splitter is a no-op. -/
theorem C8_unhandled_key_is_noop_witness :
    (Key.arrowUp = Key.other
      ∨ (true = true ∧ (Key.arrowUp = Key.arrowUp ∨ Key.arrowUp = Key.arrowDown))
      ∨ (true = false ∧ (Key.arrowUp = Key.arrowLeft ∨ Key.arrowUp = Key.arrowRight)))
    ∧ handleKeyDown Key.arrowUp 50 0 100 none true true
        = { preventDefault := false, update := none } :=
  ⟨Or.inr (Or.inl ⟨rfl, Or.inl rfl⟩),
    C8_unhandled_key_is_noop Key.arrowUp 50 0 100 none true true
      (Or.inr (Or.inl ⟨rfl, Or.inl rfl⟩))⟩

/-- C9 counterexample: with defaultValue 0 and range 0 to 100 the initial
value is the midpoint 50, not the supplied 0, because 0 is falsy in the
defaultValue-or-midpoint expression. -/
theorem C9_default_value_zero_counterexample :
    initialValue (some 0) 0 100 = 50 ∧ (50 : ℚ) ≠ 0 :=
  ⟨by norm_num [initialValue], by norm_num⟩

/-- C9 amended: the initial value equals the supplied defaultValue when it is
nonzero, and equals the midpoint when defaultValue is absent or equal to 0. -/
theorem C9_initial_value_amended (d min max : ℚ) :
    (d ≠ 0 → initialValue (some d) min max = d)
    ∧ initialValue (some 0) min max = min + (max - min) / 2
    ∧ initialValue none min max = min + (max - min) / 2 :=
  ⟨fun hd => by simp [initialValue, hd], by simp [initialValue], rfl⟩

/-- C10: a pointer-down with the separator mounted computes a value from the
pointer position at once and, when it is non-null and differs from the current
value, passes it to updateValue in the same handler, before any pointer-move
event: a plain click jumps the separator to the clicked position. -/
theorem C10_pointer_down_applies_pointer_value (r : Rect) (x y : ℚ)
    (b : Bool) (min max step value nv : ℚ)
    (hnv : getNewValueFromPointer (some r) x y b min max step = some nv)
    (hne : nv ≠ value) :
    handlePointerDown true (some r) x y b min max step value
      = { preventDefault := true, pointerDown := true, update := some nv } := by
  simp [handlePointerDown, hnv, hne]

/-- C10 witness: a click at x-coordinate 75 over a container of width 100 with
current value 50 updates to 75 during pointer-down. -/
theorem C10_pointer_down_applies_pointer_value_witness :
    getNewValueFromPointer (some ⟨0, 100, 100⟩) 75 0 true 0 100 1 = some 75
    ∧ (75 : ℚ) ≠ 50
    ∧ handlePointerDown true (some ⟨0, 100, 100⟩) 75 0 true 0 100 1 50
        = { preventDefault := true, pointerDown := true, update := some 75 } :=
  ⟨by norm_num [getNewValueFromPointer, percentToValue, getAllowedValue], by norm_num,
    C10_pointer_down_applies_pointer_value ⟨0, 100, 100⟩ 75 0 true 0 100 1 50 75
      (by norm_num [getNewValueFromPointer, percentToValue, getAllowedValue])
      (by norm_num)⟩

end WindowSplitter
